import Mathlib

/-!
# OAuth2 token service of `mailman` (`backend/internal/services/oauth2.go`)

A shallow embedding of `OAuth2Service` and `OAuth2SASLClient`, followed by the
properties of the token cache, the token client and the XOAUTH2 encoder.

Conventions of the embedding

* A Go `string` is a finite sequence of bytes (`GoString`); string literals of
  the source are written `lit "..."` (all of them are ASCII).
* A Go `error` built with `fmt.Errorf` is represented by its message; a result
  `(string, error)` is a pair of a string and an optional message, so that the
  value returned next to an error is visible.
* Instants (`time.Time`) and durations are integers counting nanoseconds; the
  readings of `time.Now()` made by a call are given by a `Clock`.
* The standard library calls that leave the process or that are not part of
  this repository (`http.NewRequest`, `http.Client.Do`, `ioutil.ReadAll`,
  `json.Unmarshal`, `url.Values.Encode`, `%v` on a decoded JSON value that is not
  a string, the directives of a format given to `fmt.Errorf` without operands)
  are fields of an environment `Env`; everything else is computed.
* Every function returns, next to its Go results, the list of HTTP effects it
  performed, in order.
* `fmt.Printf` logging is not modelled.  A call is modelled as running alone:
  the mutexes are acquired and released without contention, so only the
  registry of account locks is kept.
-/

namespace Mailman

/-! ## Strings -/

/-- A Go string: a sequence of bytes. -/
abbrev GoString := List (Fin 256)

/-- The bytes of an ASCII string literal of the source. -/
def lit (s : String) : GoString := s.toList.map (fun c => Fin.ofNat c.toNat)

/-- Decimal rendering of an unsigned integer (`%d`). -/
def fmtUint (n : Nat) : GoString := lit (toString n)

/-! ## `encoding/base64`, standard alphabet with padding -/

/-- The alphabet `encodeStd` of `encoding/base64`. -/
def encodeStd : GoString :=
  lit "ABCDEFGHIJKLMNOPQRSTUVWXYZabcdefghijklmnopqrstuvwxyz0123456789+/"

/-- The padding character `=`. -/
def padChar : Fin 256 := 61

/-- The symbol `enc.encode[v & 0x3F]`. -/
def encSym (v : Nat) : Fin 256 := encodeStd.getD (v % 64) 0

/-- `base64.StdEncoding.EncodeToString`: three source bytes become four symbols;
a final block of one or two bytes is padded with `=`. -/
def base64Encode : GoString → GoString
  | [] => []
  | [b0] =>
    let val := b0.val * 65536
    [encSym (val / 262144), encSym (val / 4096), padChar, padChar]
  | [b0, b1] =>
    let val := b0.val * 65536 + b1.val * 256
    [encSym (val / 262144), encSym (val / 4096), encSym (val / 64), padChar]
  | b0 :: b1 :: b2 :: rest =>
    let val := b0.val * 65536 + b1.val * 256 + b2.val
    encSym (val / 262144) :: encSym (val / 4096) :: encSym (val / 64) :: encSym val ::
      base64Encode rest

/-- The six-bit value of a symbol of the standard alphabet. -/
def decSym (c : Fin 256) : Option Nat :=
  let i := encodeStd.indexOf c
  if i < 64 then some i else none

/-- Decoding of standard padded base64 (RFC 4648, section 4): the input is read
four symbols at a time; padding is accepted in the last block only. -/
def base64Decode : GoString → Option GoString
  | [] => some []
  | c0 :: c1 :: c2 :: c3 :: rest =>
    if c2 = padChar ∧ c3 = padChar then
      if rest = [] then
        match decSym c0, decSym c1 with
        | some s0, some s1 => some [Fin.ofNat (s0 * 4 + s1 / 16)]
        | _, _ => none
      else none
    else if c3 = padChar then
      if rest = [] then
        match decSym c0, decSym c1, decSym c2 with
        | some s0, some s1, some s2 =>
          some [Fin.ofNat (s0 * 4 + s1 / 16), Fin.ofNat (s1 % 16 * 16 + s2 / 4)]
        | _, _, _ => none
      else none
    else
      match decSym c0, decSym c1, decSym c2, decSym c3, base64Decode rest with
      | some s0, some s1, some s2, some s3, some tail =>
        some (Fin.ofNat (s0 * 4 + s1 / 16) :: Fin.ofNat (s1 % 16 * 16 + s2 / 4) ::
          Fin.ofNat (s2 % 4 * 64 + s3) :: tail)
      | _, _, _, _, _ => none
  | _ => none

/-! ## XOAUTH2 encoder and SASL client -/

/-- `OAuth2Service.GenerateOAuth2AuthString`. -/
def GenerateOAuth2AuthString (email accessToken : GoString) : GoString :=
  let authString := lit "user=" ++ email ++ lit "\x01auth=Bearer " ++ accessToken ++ lit "\x01\x01"
  base64Encode authString

/-- `OAuth2SASLClient`. -/
structure OAuth2SASLClient where
  email : GoString
  accessToken : GoString
  deriving DecidableEq, Repr

/-- `NewOAuth2SASLClient`. -/
def NewOAuth2SASLClient (email accessToken : GoString) : OAuth2SASLClient :=
  { email := email, accessToken := accessToken }

/-- `OAuth2SASLClient.Start`: the mechanism name, the raw initial response and
the error, which is always nil. -/
def OAuth2SASLClient.Start (c : OAuth2SASLClient) : GoString × GoString × Option GoString :=
  let mech := lit "XOAUTH2"
  let ir := lit "user=" ++ c.email ++ lit "\x01auth=Bearer " ++ c.accessToken ++ lit "\x01\x01"
  (mech, ir, none)

/-- `OAuth2SASLClient.Next`: no further step; the response is nil and there is
no error. -/
def OAuth2SASLClient.Next (_c : OAuth2SASLClient) (_challenge : GoString) :
    GoString × Option GoString :=
  ([], none)

/-! ## Decoded JSON and the environment -/

/-- A value produced by `json.Unmarshal` into `interface{}`: nil, `bool`,
`float64` (kept as its 64 bits), `string`, `[]interface{}` or
`map[string]interface{}`. -/
inductive JVal where
  | null
  | bool (b : Bool)
  | num (bits : Nat)
  | str (s : GoString)
  | arr (items : List JVal)
  | obj (fields : List (GoString × JVal))

/-- A `map[string]interface{}`, as a list of bindings read from the front. -/
abbrev JObject := List (GoString × JVal)

/-- The map index expression `result[key]`, with its `ok`. -/
def JObject.get : JObject → GoString → Option JVal
  | [], _ => none
  | (k, v) :: rest, key => if k = key then some v else JObject.get rest key

/-- The type assertion `result[key].(string)`, with its `ok`. -/
def JObject.getString (result : JObject) (key : GoString) : Option GoString :=
  match result.get key with
  | some (JVal.str s) => some s
  | _ => none

/-- The type assertion `result[key].([]interface{})` with `ok` dropped: a nil
slice when the key is absent or holds something else. -/
def JObject.getArray (result : JObject) (key : GoString) : List JVal :=
  match result.get key with
  | some (JVal.arr items) => items
  | _ => []

/-- An `*http.Request` as this service builds it. -/
structure HttpRequest where
  method : GoString
  url : GoString
  body : GoString
  header : List (GoString × GoString)
  deriving DecidableEq, Repr

/-- An `*http.Response`: the status code and the result of reading the body
with `ioutil.ReadAll` (the bytes, or the message of the read error). -/
structure HttpResponse where
  statusCode : Nat
  body : Except GoString GoString

/-- The library calls the service depends on.  Errors are given by their
messages. -/
structure Env where
  /-- The encoding `url.Values.Encode` of the values set, in the order of the `Set` calls. -/
  valuesEncode : List (GoString × GoString) → GoString
  /-- The error of `http.NewRequest(method, url, body)`, if it fails. -/
  newRequest : GoString → GoString → GoString → Option GoString
  /-- The call `httpClient.Do(req)`. -/
  httpDo : HttpRequest → Except GoString HttpResponse
  /-- The call `json.Unmarshal(body, &result)` for a `map[string]interface{}`. -/
  jsonUnmarshal : GoString → Except GoString JObject
  /-- The verb `%v` applied to a decoded value that is not a string. -/
  fmtValue : JVal → GoString
  /-- The output of `fmt.Errorf(format)`, called without operands, for a format
  that starts with a `%` directive. -/
  errorfDirectives : GoString → GoString

/-- What a function did to the outside, in order. -/
inductive Effect where
  | newRequest (method url body : GoString)
  | send (req : HttpRequest)
  deriving DecidableEq, Repr

/-- The verb `%v` applied to an `interface{}` holding a decoded JSON value: a
string is written as it is. -/
def sprintV (env : Env) (v : JVal) : GoString :=
  match v with
  | JVal.str s => s
  | other => env.fmtValue other

/-- The byte `%`. -/
def percent : Fin 256 := 37

/-- The message of `fmt.Errorf(format)` called with a format and no operand:
the text before the first `%` is copied, the rest is handled by the directive
scanner of `fmt`. -/
def errorfNoArgs (env : Env) (format : GoString) : GoString :=
  match format.dropWhile (fun b => b != percent) with
  | [] => format
  | d :: ds => format.takeWhile (fun b => b != percent) ++ env.errorfDirectives (d :: ds)

/-! ## Token client -/

/-- The results `(string, error)` of the refresh operation and its effects. -/
structure TokenResult where
  token : GoString
  err : Option GoString
  effects : List Effect
  deriving DecidableEq, Repr

/-- The results `(accessToken, refreshToken string, err error)` of the code
exchange and its effects. -/
structure ExchangeResult where
  accessToken : GoString
  refreshToken : GoString
  err : Option GoString
  effects : List Effect
  deriving DecidableEq, Repr

/-- The explanation appended to an `invalid_grant` error. -/
def invalidGrantCauses : GoString :=
  lit "\nPossible causes: 1) Refresh token expired 2) Token already used 3) Invalid client_id 4) User revoked permissions"

/-- Lines 209-242 of `RefreshAccessTokenForProvider`: the decoded response. -/
def refreshDecoded (env : Env) (result : JObject) : GoString × Option GoString :=
  match result.get (lit "error") with
  | some errorMsg =>
    let errorDesc := (result.getString (lit "error_description")).getD []
    let errorCodes := result.getArray (lit "error_codes")
    let correlationId := (result.getString (lit "correlation_id")).getD []
    let errInfo := lit "OAuth2 error: " ++ sprintV env errorMsg ++ lit " - " ++ errorDesc
    let errInfo :=
      if errorCodes.length > 0 then
        errInfo ++ (lit " (Error codes: " ++ env.fmtValue (JVal.arr errorCodes) ++ lit ")")
      else errInfo
    let errInfo :=
      if correlationId ≠ [] then
        errInfo ++ (lit " (Correlation ID: " ++ correlationId ++ lit ")")
      else errInfo
    let errInfo :=
      match errorMsg with
      | JVal.str s => if s = lit "invalid_grant" then errInfo ++ invalidGrantCauses else errInfo
      | _ => errInfo
    ([], some (errorfNoArgs env errInfo))
  | none =>
    match result.getString (lit "access_token") with
    | none => ([], some (lit "access_token not found in response"))
    | some accessToken => (accessToken, none)

/-- Lines 174-242 of `RefreshAccessTokenForProvider`, after the provider switch. -/
def refreshAt (env : Env) (tokenURL scope clientID clientSecret refreshToken : GoString) :
    TokenResult :=
  let data : List (GoString × GoString) :=
    [(lit "client_id", clientID), (lit "client_secret", clientSecret),
     (lit "grant_type", lit "refresh_token"), (lit "refresh_token", refreshToken),
     (lit "scope", scope)]
  let body := env.valuesEncode data
  match env.newRequest (lit "POST") tokenURL body with
  | some e =>
    { token := [], err := some (lit "failed to create request: " ++ e),
      effects := [Effect.newRequest (lit "POST") tokenURL body] }
  | none =>
    let req : HttpRequest :=
      { method := lit "POST", url := tokenURL, body := body,
        header := [(lit "Content-Type", lit "application/x-www-form-urlencoded")] }
    let effects := [Effect.newRequest (lit "POST") tokenURL body, Effect.send req]
    match env.httpDo req with
    | Except.error e =>
      { token := [], err := some (lit "failed to refresh token: " ++ e), effects := effects }
    | Except.ok resp =>
      match resp.body with
      | Except.error e =>
        { token := [], err := some (lit "failed to read response: " ++ e), effects := effects }
      | Except.ok raw =>
        match env.jsonUnmarshal raw with
        | Except.error e =>
          { token := [], err := some (lit "failed to parse response: " ++ e), effects := effects }
        | Except.ok result =>
          { token := (refreshDecoded env result).1, err := (refreshDecoded env result).2,
            effects := effects }

/-- `OAuth2Service.RefreshAccessTokenForProvider`. -/
def RefreshAccessTokenForProvider (env : Env)
    (providerType clientID clientSecret refreshToken : GoString) : TokenResult :=
  if providerType = lit "gmail" then
    refreshAt env (lit "https://oauth2.googleapis.com/token")
      (lit "https://mail.google.com/ https://www.googleapis.com/auth/userinfo.email https://www.googleapis.com/auth/userinfo.profile")
      clientID clientSecret refreshToken
  else if providerType = lit "outlook" then
    refreshAt env (lit "https://login.microsoftonline.com/common/oauth2/v2.0/token")
      (lit "https://outlook.office.com/IMAP.AccessAsUser.All offline_access")
      clientID clientSecret refreshToken
  else
    { token := [], err := some (lit "unsupported provider type: " ++ providerType), effects := [] }

/-- `OAuth2Service.RefreshAccessToken`, the legacy entry point for Outlook. -/
def RefreshAccessToken (env : Env) (clientID refreshToken : GoString) : TokenResult :=
  RefreshAccessTokenForProvider env (lit "outlook") clientID [] refreshToken

/-- `OAuth2Service.GenerateAuthURL`. -/
def GenerateAuthURL (env : Env) (providerType clientID redirectURI state : GoString) :
    GoString × Option GoString :=
  let build (authURL scope : GoString) : GoString × Option GoString :=
    let params : List (GoString × GoString) :=
      [(lit "client_id", clientID), (lit "redirect_uri", redirectURI),
       (lit "response_type", lit "code"), (lit "scope", scope), (lit "state", state),
       (lit "access_type", lit "offline"), (lit "prompt", lit "consent")]
    (authURL ++ lit "?" ++ env.valuesEncode params, none)
  if providerType = lit "gmail" then
    build (lit "https://accounts.google.com/o/oauth2/auth")
      (lit "https://mail.google.com/ https://www.googleapis.com/auth/userinfo.email https://www.googleapis.com/auth/userinfo.profile")
  else if providerType = lit "outlook" then
    build (lit "https://login.microsoftonline.com/common/oauth2/v2.0/authorize")
      (lit "https://outlook.office.com/IMAP.AccessAsUser.All offline_access")
  else
    ([], some (lit "unsupported provider type: " ++ providerType))

/-- Lines 315-330 of `ExchangeCodeForTokens`: the decoded response. -/
def exchangeDecoded (env : Env) (result : JObject) : GoString × GoString × Option GoString :=
  match result.get (lit "error") with
  | some errorMsg =>
    let errorDesc := (result.getString (lit "error_description")).getD []
    ([], [], some (lit "OAuth2 error: " ++ sprintV env errorMsg ++ lit " - " ++ errorDesc))
  | none =>
    match result.getString (lit "access_token") with
    | none => ([], [], some (lit "access_token not found in response"))
    | some accessToken =>
      match result.getString (lit "refresh_token") with
      | none => ([], [], some (lit "refresh_token not found in response"))
      | some refreshToken => (accessToken, refreshToken, none)

/-- Lines 285-331 of `ExchangeCodeForTokens`, after the provider switch. -/
def exchangeAt (env : Env) (tokenURL clientID clientSecret code redirectURI : GoString) :
    ExchangeResult :=
  let data : List (GoString × GoString) :=
    [(lit "client_id", clientID), (lit "client_secret", clientSecret), (lit "code", code),
     (lit "grant_type", lit "authorization_code"), (lit "redirect_uri", redirectURI)]
  let body := env.valuesEncode data
  match env.newRequest (lit "POST") tokenURL body with
  | some e =>
    { accessToken := [], refreshToken := [],
      err := some (lit "failed to create request: " ++ e),
      effects := [Effect.newRequest (lit "POST") tokenURL body] }
  | none =>
    let req : HttpRequest :=
      { method := lit "POST", url := tokenURL, body := body,
        header := [(lit "Content-Type", lit "application/x-www-form-urlencoded")] }
    let effects := [Effect.newRequest (lit "POST") tokenURL body, Effect.send req]
    match env.httpDo req with
    | Except.error e =>
      { accessToken := [], refreshToken := [],
        err := some (lit "failed to exchange code: " ++ e), effects := effects }
    | Except.ok resp =>
      match resp.body with
      | Except.error e =>
        { accessToken := [], refreshToken := [],
          err := some (lit "failed to read response: " ++ e), effects := effects }
      | Except.ok raw =>
        match env.jsonUnmarshal raw with
        | Except.error e =>
          { accessToken := [], refreshToken := [],
            err := some (lit "failed to parse response: " ++ e), effects := effects }
        | Except.ok result =>
          { accessToken := (exchangeDecoded env result).1,
            refreshToken := (exchangeDecoded env result).2.1,
            err := (exchangeDecoded env result).2.2, effects := effects }

/-- `OAuth2Service.ExchangeCodeForTokens`. -/
def ExchangeCodeForTokens (env : Env)
    (providerType clientID clientSecret code redirectURI : GoString) : ExchangeResult :=
  if providerType = lit "gmail" then
    exchangeAt env (lit "https://oauth2.googleapis.com/token") clientID clientSecret code
      redirectURI
  else if providerType = lit "outlook" then
    exchangeAt env (lit "https://login.microsoftonline.com/common/oauth2/v2.0/token") clientID
      clientSecret code redirectURI
  else
    { accessToken := [], refreshToken := [],
      err := some (lit "unsupported provider type: " ++ providerType), effects := [] }

/-! ## Token cache -/

/-! Instants and durations are integers counting nanoseconds. -/

/-- The duration `time.Second`. -/
def second : Int := 1000000000

/-- The duration `time.Minute`. -/
def minute : Int := 60 * second

/-- The readings of `time.Now()` made by one call of
`RefreshAccessTokenWithCache`, in the order of the source: the first check, the
check under the account lock, `time.Since` of the throttle, and the two readings
that fill the new entry. -/
structure Clock where
  check : Int
  recheck : Int
  throttle : Int
  expiry : Int
  stamp : Int
  deriving DecidableEq, Repr

/-- A call during which every reading of the clock gives `now`. -/
def Clock.frozen (now : Int) : Clock :=
  { check := now, recheck := now, throttle := now, expiry := now, stamp := now }

/-- `TokenCacheEntry`. -/
structure TokenCacheEntry where
  AccessToken : GoString
  ExpiresAt : Int
  RefreshTime : Int
  deriving DecidableEq, Repr

/-- The map `tokenCache`, as a list of bindings read from the front. -/
abbrev TokenCache := List (GoString × TokenCacheEntry)

/-- The map index expression `s.tokenCache[cacheKey]`, with its `exists`. -/
def TokenCache.get : TokenCache → GoString → Option TokenCacheEntry
  | [], _ => none
  | (k, e) :: rest, key => if k = key then some e else TokenCache.get rest key

/-- The map assignment `s.tokenCache[cacheKey] = entry`. -/
def TokenCache.set : TokenCache → GoString → TokenCacheEntry → TokenCache
  | [], key, entry => [(key, entry)]
  | (k, e) :: rest, key, entry =>
    if k = key then (key, entry) :: rest else (k, e) :: TokenCache.set rest key entry

/-- The mutable fields of `OAuth2Service`: the token cache and the keys for
which an account lock has been created. -/
structure OAuth2Service where
  tokenCache : TokenCache
  accountLocks : List GoString
  deriving DecidableEq, Repr

/-- `NewOAuth2Service`. -/
def NewOAuth2Service : OAuth2Service :=
  { tokenCache := [], accountLocks := [] }

/-- `OAuth2Service.getAccountLock`: the lock of the key is created on first use. -/
def getAccountLock (s : OAuth2Service) (accountKey : GoString) : OAuth2Service :=
  if accountKey ∈ s.accountLocks then s
  else { s with accountLocks := s.accountLocks ++ [accountKey] }

/-- `OAuth2Service.getCacheKey`; `none` is the run-time panic of the slice
expression `refreshToken[:10]` on a string shorter than ten bytes. -/
def getCacheKey (providerType clientID refreshToken : GoString) : Option GoString :=
  if 10 ≤ refreshToken.length then
    some (providerType ++ lit "_" ++ clientID ++ lit "_" ++ refreshToken.take 10)
  else none

/-- The test of lines 91-93 and 108-109: the access token of the entry of the
key, when `time.Now().Before(entry.ExpiresAt.Add(-5 * time.Minute))`. -/
def cachedToken (cache : TokenCache) (cacheKey : GoString) (now : Int) : Option GoString :=
  match cache.get cacheKey with
  | some entry => if now < entry.ExpiresAt + -5 * minute then some entry.AccessToken else none
  | none => none

/-- The test of lines 119-120: there is an entry and
`time.Since(entry.RefreshTime) < 30*time.Second`. -/
def throttled (cache : TokenCache) (cacheKey : GoString) (now : Int) : Bool :=
  match cache.get cacheKey with
  | some entry => decide (now - entry.RefreshTime < 30 * second)
  | none => false

/-- How a call ended: with a run-time panic, or by returning `(string, error)`. -/
inductive Outcome where
  | panicked
  | returned (token : GoString) (err : Option GoString)
  deriving DecidableEq, Repr

/-- The arguments of a call of the refresh operation of the token client. -/
structure RefreshArgs where
  providerType : GoString
  clientID : GoString
  clientSecret : GoString
  refreshToken : GoString
  deriving DecidableEq, Repr

/-- What a call of `RefreshAccessTokenWithCache` did: how it ended, the service
afterwards, the calls of `RefreshAccessTokenForProvider` it made and the HTTP
effects of those calls. -/
structure CacheCall where
  outcome : Outcome
  service : OAuth2Service
  refreshCalls : List RefreshArgs
  effects : List Effect
  deriving DecidableEq, Repr

/-- `OAuth2Service.RefreshAccessTokenWithCache`. -/
def RefreshAccessTokenWithCache (env : Env) (clock : Clock) (s : OAuth2Service)
    (providerType clientID clientSecret refreshToken : GoString) (accountID : Nat) : CacheCall :=
  match getCacheKey providerType clientID refreshToken with
  | none => { outcome := Outcome.panicked, service := s, refreshCalls := [], effects := [] }
  | some cacheKey =>
    let accountKey := providerType ++ lit "_" ++ fmtUint accountID
    match cachedToken s.tokenCache cacheKey clock.check with
    | some token =>
      { outcome := Outcome.returned token none, service := s, refreshCalls := [], effects := [] }
    | none =>
      let s1 := getAccountLock s accountKey
      match cachedToken s1.tokenCache cacheKey clock.recheck with
      | some token =>
        { outcome := Outcome.returned token none, service := s1, refreshCalls := [],
          effects := [] }
      | none =>
        if throttled s1.tokenCache cacheKey clock.throttle then
          { outcome :=
              Outcome.returned [] (some (lit "token refresh throttled, please wait a moment")),
            service := s1, refreshCalls := [], effects := [] }
        else
          let r := RefreshAccessTokenForProvider env providerType clientID clientSecret refreshToken
          let call : RefreshArgs :=
            { providerType := providerType, clientID := clientID, clientSecret := clientSecret,
              refreshToken := refreshToken }
          match r.err with
          | some err =>
            { outcome := Outcome.returned [] (some err), service := s1, refreshCalls := [call],
              effects := r.effects }
          | none =>
            let entry : TokenCacheEntry :=
              { AccessToken := r.token, ExpiresAt := clock.expiry + 55 * minute,
                RefreshTime := clock.stamp }
            { outcome := Outcome.returned r.token none,
              service := { s1 with tokenCache := s1.tokenCache.set cacheKey entry },
              refreshCalls := [call], effects := r.effects }

/-! ## Sample environments -/

/-- An environment in which every request is built and sent, and the token
endpoint answers status 200 with a body that decodes to `result`. -/
def answering (result : JObject) : Env :=
  { valuesEncode := fun _ => [],
    newRequest := fun _ _ _ => none,
    httpDo := fun _ => Except.ok { statusCode := 200, body := Except.ok [] },
    jsonUnmarshal := fun _ => Except.ok result,
    fmtValue := fun _ => [],
    errorfDirectives := fun _ => [] }

/-- An environment in which the transport fails on every request. -/
def offline : Env :=
  { valuesEncode := fun _ => [],
    newRequest := fun _ _ _ => none,
    httpDo := fun _ => Except.error (lit "dial tcp: i/o timeout"),
    jsonUnmarshal := fun _ => Except.error (lit "unexpected end of JSON input"),
    fmtValue := fun _ => [],
    errorfDirectives := fun _ => [] }

/-! ## Lemmas on the cache map -/

theorem TokenCache.get_set_same (m : TokenCache) (k : GoString) (e : TokenCacheEntry) :
    (m.set k e).get k = some e := by
  induction m with
  | nil => simp [TokenCache.set, TokenCache.get]
  | cons hd tl ih =>
    obtain ⟨k0, e0⟩ := hd
    by_cases h : k0 = k
    · simp [TokenCache.set, TokenCache.get, h]
    · simp [TokenCache.set, TokenCache.get, h, ih]

theorem TokenCache.get_set_other (m : TokenCache) (k k1 : GoString) (e : TokenCacheEntry)
    (hne : k1 ≠ k) : (m.set k e).get k1 = m.get k1 := by
  induction m with
  | nil => simp [TokenCache.set, TokenCache.get, Ne.symm hne]
  | cons hd tl ih =>
    obtain ⟨k0, e0⟩ := hd
    by_cases h : k0 = k
    · subst h
      simp [TokenCache.set, TokenCache.get, Ne.symm hne]
    · by_cases h1 : k0 = k1
      · subst h1
        simp [TokenCache.set, TokenCache.get, h]
      · simp [TokenCache.set, TokenCache.get, h, h1, ih]

theorem getAccountLock_tokenCache (s : OAuth2Service) (a : GoString) :
    (getAccountLock s a).tokenCache = s.tokenCache := by
  unfold getAccountLock
  split <;> rfl

theorem cachedToken_fresh (cache : TokenCache) (k : GoString) (now : Int) (e : TokenCacheEntry)
    (he : cache.get k = some e) (hf : now < e.ExpiresAt - 5 * minute) :
    cachedToken cache k now = some e.AccessToken := by
  have : now < e.ExpiresAt + -5 * minute := by omega
  simp only [cachedToken, he, this, if_true]

theorem cachedToken_stale (cache : TokenCache) (k : GoString) (now : Int) (e : TokenCacheEntry)
    (he : cache.get k = some e) (hf : e.ExpiresAt - 5 * minute ≤ now) :
    cachedToken cache k now = none := by
  have : ¬ now < e.ExpiresAt + -5 * minute := by omega
  simp only [cachedToken, he, this, if_false]

theorem cachedToken_missing (cache : TokenCache) (k : GoString) (now : Int)
    (he : cache.get k = none) : cachedToken cache k now = none := by
  simp only [cachedToken, he]

/-- A fresh entry found at the first check ends the call: the token of the
entry is returned, the service is untouched and nothing is requested. -/
theorem call_of_fresh (env : Env) (clock : Clock) (s : OAuth2Service)
    (p c cs r : GoString) (acct : Nat) (k : GoString) (e : TokenCacheEntry)
    (hk : getCacheKey p c r = some k) (he : s.tokenCache.get k = some e)
    (hf : clock.check < e.ExpiresAt - 5 * minute) :
    RefreshAccessTokenWithCache env clock s p c cs r acct =
      { outcome := Outcome.returned e.AccessToken none, service := s, refreshCalls := [],
        effects := [] } := by
  simp [RefreshAccessTokenWithCache, hk, cachedToken_fresh _ _ _ _ he hf]

/-- When neither check finds a fresh entry and the throttle does not apply, the
call is one call of the refresh operation followed, on success, by the store. -/
theorem call_of_refresh (env : Env) (clock : Clock) (s : OAuth2Service)
    (p c cs r : GoString) (acct : Nat) (k : GoString)
    (hk : getCacheKey p c r = some k)
    (h1 : cachedToken s.tokenCache k clock.check = none)
    (h2 : cachedToken s.tokenCache k clock.recheck = none)
    (h3 : throttled s.tokenCache k clock.throttle = false) :
    RefreshAccessTokenWithCache env clock s p c cs r acct =
      match (RefreshAccessTokenForProvider env p c cs r).err with
      | some err =>
        { outcome := Outcome.returned [] (some err),
          service := getAccountLock s (p ++ lit "_" ++ fmtUint acct),
          refreshCalls :=
            [{ providerType := p, clientID := c, clientSecret := cs, refreshToken := r }],
          effects := (RefreshAccessTokenForProvider env p c cs r).effects }
      | none =>
        { outcome := Outcome.returned (RefreshAccessTokenForProvider env p c cs r).token none,
          service :=
            { getAccountLock s (p ++ lit "_" ++ fmtUint acct) with
              tokenCache := s.tokenCache.set k
                { AccessToken := (RefreshAccessTokenForProvider env p c cs r).token,
                  ExpiresAt := clock.expiry + 55 * minute, RefreshTime := clock.stamp } },
          refreshCalls :=
            [{ providerType := p, clientID := c, clientSecret := cs, refreshToken := r }],
          effects := (RefreshAccessTokenForProvider env p c cs r).effects } := by
  simp only [RefreshAccessTokenWithCache, hk, h1, getAccountLock_tokenCache, h2, h3]
  cases (RefreshAccessTokenForProvider env p c cs r).err <;> simp

/-- When neither check finds a fresh entry and the entry was refreshed less
than thirty seconds ago, the call fails without calling the token client. -/
theorem call_of_throttled (env : Env) (clock : Clock) (s : OAuth2Service)
    (p c cs r : GoString) (acct : Nat) (k : GoString)
    (hk : getCacheKey p c r = some k)
    (h1 : cachedToken s.tokenCache k clock.check = none)
    (h2 : cachedToken s.tokenCache k clock.recheck = none)
    (h3 : throttled s.tokenCache k clock.throttle = true) :
    RefreshAccessTokenWithCache env clock s p c cs r acct =
      { outcome :=
          Outcome.returned [] (some (lit "token refresh throttled, please wait a moment")),
        service := getAccountLock s (p ++ lit "_" ++ fmtUint acct),
        refreshCalls := [], effects := [] } := by
  simp only [RefreshAccessTokenWithCache, hk, h1, getAccountLock_tokenCache, h2, h3, if_true]

/-- Every returning call is one of the four exits of the function. -/
theorem call_cases (env : Env) (clock : Clock) (s : OAuth2Service)
    (p c cs r : GoString) (acct : Nat) (k : GoString) (hk : getCacheKey p c r = some k) :
    (∃ e, s.tokenCache.get k = some e ∧
        RefreshAccessTokenWithCache env clock s p c cs r acct =
          { outcome := Outcome.returned e.AccessToken none, service := s, refreshCalls := [],
            effects := [] }) ∨
      (∃ e, s.tokenCache.get k = some e ∧
        RefreshAccessTokenWithCache env clock s p c cs r acct =
          { outcome := Outcome.returned e.AccessToken none,
            service := getAccountLock s (p ++ lit "_" ++ fmtUint acct), refreshCalls := [],
            effects := [] }) ∨
      RefreshAccessTokenWithCache env clock s p c cs r acct =
          { outcome :=
              Outcome.returned [] (some (lit "token refresh throttled, please wait a moment")),
            service := getAccountLock s (p ++ lit "_" ++ fmtUint acct),
            refreshCalls := [], effects := [] } ∨
      (∃ err, (RefreshAccessTokenForProvider env p c cs r).err = some err ∧
        RefreshAccessTokenWithCache env clock s p c cs r acct =
          { outcome := Outcome.returned [] (some err),
            service := getAccountLock s (p ++ lit "_" ++ fmtUint acct),
            refreshCalls :=
              [{ providerType := p, clientID := c, clientSecret := cs, refreshToken := r }],
            effects := (RefreshAccessTokenForProvider env p c cs r).effects }) ∨
      ((RefreshAccessTokenForProvider env p c cs r).err = none ∧
        RefreshAccessTokenWithCache env clock s p c cs r acct =
          { outcome := Outcome.returned (RefreshAccessTokenForProvider env p c cs r).token none,
            service :=
              { getAccountLock s (p ++ lit "_" ++ fmtUint acct) with
                tokenCache := s.tokenCache.set k
                  { AccessToken := (RefreshAccessTokenForProvider env p c cs r).token,
                    ExpiresAt := clock.expiry + 55 * minute, RefreshTime := clock.stamp } },
            refreshCalls :=
              [{ providerType := p, clientID := c, clientSecret := cs, refreshToken := r }],
            effects := (RefreshAccessTokenForProvider env p c cs r).effects }) := by
  cases h1 : cachedToken s.tokenCache k clock.check with
  | some tok =>
    left
    unfold cachedToken at h1
    cases he : s.tokenCache.get k with
    | none => simp [he] at h1
    | some e =>
      simp only [he] at h1
      split at h1
      · rename_i hlt
        refine ⟨e, rfl, ?_⟩
        exact call_of_fresh env clock s p c cs r acct k e hk he (by omega)
      · simp at h1
  | none =>
    right
    cases h2 : cachedToken s.tokenCache k clock.recheck with
    | some tok =>
      left
      have hcall : RefreshAccessTokenWithCache env clock s p c cs r acct =
          { outcome := Outcome.returned tok none,
            service := getAccountLock s (p ++ lit "_" ++ fmtUint acct), refreshCalls := [],
            effects := [] } := by
        simp only [RefreshAccessTokenWithCache, hk, h1, getAccountLock_tokenCache, h2]
      unfold cachedToken at h2
      cases he : s.tokenCache.get k with
      | none => simp [he] at h2
      | some e =>
        simp only [he] at h2
        split at h2
        · simp only [Option.some.injEq] at h2
          exact ⟨e, rfl, by rw [hcall, h2]⟩
        · simp at h2
    | none =>
      right
      cases h3 : throttled s.tokenCache k clock.throttle with
      | true =>
        left
        exact call_of_throttled env clock s p c cs r acct k hk h1 h2 h3
      | false =>
        right
        have hcall := call_of_refresh env clock s p c cs r acct k hk h1 h2 h3
        cases herr : (RefreshAccessTokenForProvider env p c cs r).err with
        | some err =>
          left
          refine ⟨err, rfl, ?_⟩
          rw [hcall, herr]
        | none =>
          right
          refine ⟨rfl, ?_⟩
          rw [hcall, herr]

/-- After a call that returned a token without error and did call the token
client, the cache holds the entry stored by that call. -/
theorem stored_of_refreshed (env : Env) (clock : Clock) (s : OAuth2Service)
    (p c cs r : GoString) (acct : Nat) (k t : GoString) (hk : getCacheKey p c r = some k)
    (hout : (RefreshAccessTokenWithCache env clock s p c cs r acct).outcome =
      Outcome.returned t none)
    (hcalls : (RefreshAccessTokenWithCache env clock s p c cs r acct).refreshCalls ≠ []) :
    (RefreshAccessTokenWithCache env clock s p c cs r acct).service.tokenCache.get k =
      some { AccessToken := t, ExpiresAt := clock.expiry + 55 * minute,
             RefreshTime := clock.stamp } := by
  rcases call_cases env clock s p c cs r acct k hk with
    ⟨e, _, h⟩ | ⟨e, _, h⟩ | h | ⟨err, _, h⟩ | ⟨_, h⟩
  · rw [h] at hcalls
    exact absurd rfl hcalls
  · rw [h] at hcalls
    exact absurd rfl hcalls
  · rw [h] at hcalls
    exact absurd rfl hcalls
  · rw [h] at hout
    simp at hout
  · rw [h] at hout ⊢
    simp only [Outcome.returned.injEq, and_true] at hout
    subst hout
    exact TokenCache.get_set_same _ _ _

/-- After a call that returned a token without error, the cache holds an entry
for the key whose access token is the token returned. -/
theorem entry_of_success (env : Env) (clock : Clock) (s : OAuth2Service)
    (p c cs r : GoString) (acct : Nat) (k t : GoString) (hk : getCacheKey p c r = some k)
    (hout : (RefreshAccessTokenWithCache env clock s p c cs r acct).outcome =
      Outcome.returned t none) :
    ∃ e, (RefreshAccessTokenWithCache env clock s p c cs r acct).service.tokenCache.get k =
        some e ∧ e.AccessToken = t := by
  rcases call_cases env clock s p c cs r acct k hk with
    ⟨e, he, h⟩ | ⟨e, he, h⟩ | h | ⟨err, _, h⟩ | ⟨_, h⟩
  · rw [h] at hout ⊢
    simp only [Outcome.returned.injEq, and_true] at hout
    exact ⟨e, he, hout⟩
  · rw [h] at hout ⊢
    simp only [Outcome.returned.injEq, and_true] at hout
    exact ⟨e, by rw [getAccountLock_tokenCache]; exact he, hout⟩
  · rw [h] at hout
    simp at hout
  · rw [h] at hout
    simp at hout
  · rw [h] at hout ⊢
    simp only [Outcome.returned.injEq, and_true] at hout
    exact ⟨_, TokenCache.get_set_same _ _ _, hout⟩

/-- A call that returns an error leaves the token cache as it was. -/
theorem cache_of_failure (env : Env) (clock : Clock) (s : OAuth2Service)
    (p c cs r : GoString) (acct : Nat) (tok err : GoString)
    (hout : (RefreshAccessTokenWithCache env clock s p c cs r acct).outcome =
      Outcome.returned tok (some err)) :
    (RefreshAccessTokenWithCache env clock s p c cs r acct).service.tokenCache =
      s.tokenCache := by
  cases hk : getCacheKey p c r with
  | none =>
    simp [RefreshAccessTokenWithCache, hk] at hout
  | some k =>
    rcases call_cases env clock s p c cs r acct k hk with
      ⟨e, _, h⟩ | ⟨e, _, h⟩ | h | ⟨err1, _, h⟩ | ⟨_, h⟩
    · rw [h]
    · rw [h]
      exact getAccountLock_tokenCache _ _
    · rw [h]
      exact getAccountLock_tokenCache _ _
    · rw [h]
      exact getAccountLock_tokenCache _ _
    · rw [h] at hout
      simp at hout

/-! ## The token cache

In the statements below the time of a call is given by the readings of its
clock: `clock.check` is `time.Now()` at the first check, `clock.recheck` at the
check under the lock, `clock.throttle` at the throttle test, and
`clock.expiry`, `clock.stamp` are the two readings that fill a new entry.  A
call "at time `now`" is the call whose readings are all `now`,
`Clock.frozen now`. -/

/-- C1 (CheckFresh).  For every environment, service state, arguments and
clock, with `now` the reading of the clock at the first check: when the cache
holds an entry for the key computed from the provider type, the client id and
the refresh token, and `now < entry.ExpiresAt - 5 min`, the call returns the
access token of the entry with no error, calls the token client zero times,
performs no HTTP effect and leaves the service (hence the cache) as it was.  In
particular this is so for an entry with `ExpiresAt = now + 56 min`. -/
theorem checkFresh_hit :
    (∀ (env : Env) (clock : Clock) (s : OAuth2Service) (p c cs r : GoString) (acct : Nat)
        (k : GoString) (e : TokenCacheEntry),
        getCacheKey p c r = some k → s.tokenCache.get k = some e →
        clock.check < e.ExpiresAt - 5 * minute →
        RefreshAccessTokenWithCache env clock s p c cs r acct =
          { outcome := Outcome.returned e.AccessToken none, service := s, refreshCalls := [],
            effects := [] }) ∧
    (∀ (env : Env) (clock : Clock) (s : OAuth2Service) (p c cs r : GoString) (acct : Nat)
        (k : GoString) (e : TokenCacheEntry),
        getCacheKey p c r = some k → s.tokenCache.get k = some e →
        e.ExpiresAt = clock.check + 56 * minute →
        RefreshAccessTokenWithCache env clock s p c cs r acct =
          { outcome := Outcome.returned e.AccessToken none, service := s, refreshCalls := [],
            effects := [] }) := by
  constructor
  · intro env clock s p c cs r acct k e hk he hf
    exact call_of_fresh env clock s p c cs r acct k e hk he hf
  · intro env clock s p c cs r acct k e hk he hx
    refine call_of_fresh env clock s p c cs r acct k e hk he ?_
    simp only [hx, minute, second]
    omega

/-- C1, at a concrete input: an entry that expires 56 minutes after `now = 0`
is returned from the cache. -/
theorem checkFresh_hit_witness :
    getCacheKey (lit "gmail") (lit "cid") (lit "0123456789abc") =
        some (lit "gmail_cid_0123456789") ∧
      RefreshAccessTokenWithCache offline (Clock.frozen 0)
          { tokenCache :=
              [(lit "gmail_cid_0123456789",
                { AccessToken := lit "tok", ExpiresAt := 0 + 56 * minute, RefreshTime := -7 })],
            accountLocks := [] }
          (lit "gmail") (lit "cid") (lit "secret") (lit "0123456789abc") 7 =
        { outcome := Outcome.returned (lit "tok") none,
          service :=
            { tokenCache :=
                [(lit "gmail_cid_0123456789",
                  { AccessToken := lit "tok", ExpiresAt := 0 + 56 * minute, RefreshTime := -7 })],
              accountLocks := [] },
          refreshCalls := [], effects := [] } :=
  ⟨by decide,
   checkFresh_hit.2 offline (Clock.frozen 0) _ (lit "gmail") (lit "cid") (lit "secret")
     (lit "0123456789abc") 7 (lit "gmail_cid_0123456789")
     { AccessToken := lit "tok", ExpiresAt := 0 + 56 * minute, RefreshTime := -7 }
     (by decide) (by decide) rfl⟩

/-- C2 (StoreAndReturn).  Take a call whose clock does not run backwards between
the first check, the check under the lock and the throttle test, and let `now`
be its first reading.  When the cache entry for the key is missing, or is not
fresh (`now >= ExpiresAt - 5 min`) and was not refreshed within the last 30 s
(`now - RefreshTime >= 30 s`): exactly one call of the refresh operation of the
token client is made, with the arguments of the call, and the HTTP effects are
those of that one call; when it succeeds with token `t`, the call returns `t`
with no error, the cache entry of the key is
`{AccessToken: t, ExpiresAt: now' + 55 min, RefreshTime: now''}` for the two
readings `now'`, `now''` made when the entry is built (both are `now` for a
call at time `now`), and the entry of every other key is as before. -/
theorem storeAndReturn (env : Env) (clock : Clock) (s : OAuth2Service) (p c cs r : GoString)
    (acct : Nat) (k : GoString) (hk : getCacheKey p c r = some k)
    (hmono : clock.check ≤ clock.recheck ∧ clock.recheck ≤ clock.throttle)
    (hstale : s.tokenCache.get k = none ∨
      ∃ e, s.tokenCache.get k = some e ∧ e.ExpiresAt - 5 * minute ≤ clock.check ∧
        30 * second ≤ clock.check - e.RefreshTime) :
    (RefreshAccessTokenWithCache env clock s p c cs r acct).refreshCalls =
        [{ providerType := p, clientID := c, clientSecret := cs, refreshToken := r }] ∧
      (RefreshAccessTokenWithCache env clock s p c cs r acct).effects =
        (RefreshAccessTokenForProvider env p c cs r).effects ∧
      ∀ t, (RefreshAccessTokenForProvider env p c cs r).token = t →
        (RefreshAccessTokenForProvider env p c cs r).err = none →
        (RefreshAccessTokenWithCache env clock s p c cs r acct).outcome =
            Outcome.returned t none ∧
          (RefreshAccessTokenWithCache env clock s p c cs r acct).service.tokenCache.get k =
            some { AccessToken := t, ExpiresAt := clock.expiry + 55 * minute,
                   RefreshTime := clock.stamp } ∧
          ∀ k1, k1 ≠ k →
            (RefreshAccessTokenWithCache env clock s p c cs r acct).service.tokenCache.get k1 =
              s.tokenCache.get k1 := by
  obtain ⟨hm1, hm2⟩ := hmono
  have h1 : cachedToken s.tokenCache k clock.check = none := by
    rcases hstale with h | ⟨e, he, hx, _⟩
    · exact cachedToken_missing _ _ _ h
    · exact cachedToken_stale _ _ _ e he hx
  have h2 : cachedToken s.tokenCache k clock.recheck = none := by
    rcases hstale with h | ⟨e, he, hx, _⟩
    · exact cachedToken_missing _ _ _ h
    · exact cachedToken_stale _ _ _ e he (by omega)
  have h3 : throttled s.tokenCache k clock.throttle = false := by
    rcases hstale with h | ⟨e, he, _, hr⟩
    · simp only [throttled, h]
    · have : ¬ clock.throttle - e.RefreshTime < 30 * second := by omega
      simp only [throttled, he, this, decide_False]
  rw [call_of_refresh env clock s p c cs r acct k hk h1 h2 h3]
  cases hres : (RefreshAccessTokenForProvider env p c cs r).err with
  | some err => simp
  | none =>
    refine ⟨rfl, rfl, ?_⟩
    intro t ht _
    subst ht
    refine ⟨rfl, ?_, ?_⟩
    · exact TokenCache.get_set_same _ _ _
    · intro k1 hne
      exact TokenCache.get_set_other _ _ _ _ hne

/-- C2, at a concrete input: at time `now = 51 min` the entry expires 4 minutes
later, inside the margin, and was refreshed 51 minutes before; one refresh is
made and its token replaces the entry, with `ExpiresAt = now + 55 min` and
`RefreshTime = now`. -/
theorem storeAndReturn_witness :
    (RefreshAccessTokenWithCache (answering [(lit "access_token", JVal.str (lit "new"))])
          (Clock.frozen (51 * minute))
          { tokenCache :=
              [(lit "gmail_cid_0123456789",
                { AccessToken := lit "old", ExpiresAt := 55 * minute, RefreshTime := 0 })],
            accountLocks := [] }
          (lit "gmail") (lit "cid") (lit "secret") (lit "0123456789abc") 7).refreshCalls.length =
        1 ∧
      (RefreshAccessTokenWithCache (answering [(lit "access_token", JVal.str (lit "new"))])
          (Clock.frozen (51 * minute))
          { tokenCache :=
              [(lit "gmail_cid_0123456789",
                { AccessToken := lit "old", ExpiresAt := 55 * minute, RefreshTime := 0 })],
            accountLocks := [] }
          (lit "gmail") (lit "cid") (lit "secret") (lit "0123456789abc")
          7).service.tokenCache.get (lit "gmail_cid_0123456789") =
        some { AccessToken := lit "new", ExpiresAt := 51 * minute + 55 * minute,
               RefreshTime := 51 * minute } :=
  have h := storeAndReturn (answering [(lit "access_token", JVal.str (lit "new"))])
    (Clock.frozen (51 * minute))
    { tokenCache :=
        [(lit "gmail_cid_0123456789",
          { AccessToken := lit "old", ExpiresAt := 55 * minute, RefreshTime := 0 })],
      accountLocks := [] }
    (lit "gmail") (lit "cid") (lit "secret") (lit "0123456789abc") 7
    (lit "gmail_cid_0123456789") (by decide) (by decide)
    (Or.inr ⟨{ AccessToken := lit "old", ExpiresAt := 55 * minute, RefreshTime := 0 },
      by decide, by decide, by decide⟩)
  ⟨by rw [h.1]; rfl, (h.2.2 (lit "new") (by decide) (by decide)).2.1⟩

/-- C3 fails as stated.  On an empty cache a call at time 0 refreshes and stores
an entry with `RefreshTime = 0`; a second call for the same key at time 10 s
(so `now - r < 30 s`) is not throttled: the stored entry is fresh, the call
returns the cached token with no error. -/
theorem throttle_after_refresh_counterexample :
    (RefreshAccessTokenWithCache (answering [(lit "access_token", JVal.str (lit "tok"))])
        (Clock.frozen 0) NewOAuth2Service
        (lit "gmail") (lit "cid") (lit "secret") (lit "0123456789abc") 7).outcome =
        Outcome.returned (lit "tok") none ∧
      (RefreshAccessTokenWithCache (answering [(lit "access_token", JVal.str (lit "tok"))])
        (Clock.frozen 0) NewOAuth2Service
        (lit "gmail") (lit "cid") (lit "secret") (lit "0123456789abc") 7).refreshCalls.length =
        1 ∧
      (RefreshAccessTokenWithCache (answering [(lit "access_token", JVal.str (lit "tok"))])
        (Clock.frozen 0) NewOAuth2Service
        (lit "gmail") (lit "cid") (lit "secret") (lit "0123456789abc") 7).service.tokenCache =
        [(lit "gmail_cid_0123456789",
          { AccessToken := lit "tok", ExpiresAt := 55 * minute, RefreshTime := 0 })] ∧
      10 * second - 0 < 30 * second ∧
      (RefreshAccessTokenWithCache (answering [(lit "access_token", JVal.str (lit "tok"))])
        (Clock.frozen (10 * second))
        (RefreshAccessTokenWithCache (answering [(lit "access_token", JVal.str (lit "tok"))])
          (Clock.frozen 0) NewOAuth2Service
          (lit "gmail") (lit "cid") (lit "secret") (lit "0123456789abc") 7).service
        (lit "gmail") (lit "cid") (lit "secret") (lit "0123456789abc") 7).outcome =
        Outcome.returned (lit "tok") none ∧
      (RefreshAccessTokenWithCache (answering [(lit "access_token", JVal.str (lit "tok"))])
        (Clock.frozen (10 * second))
        (RefreshAccessTokenWithCache (answering [(lit "access_token", JVal.str (lit "tok"))])
          (Clock.frozen 0) NewOAuth2Service
          (lit "gmail") (lit "cid") (lit "secret") (lit "0123456789abc") 7).service
        (lit "gmail") (lit "cid") (lit "secret") (lit "0123456789abc") 7).outcome ≠
        Outcome.returned [] (some (lit "token refresh throttled, please wait a moment")) := by
  decide

/-- C3, amended (Throttle).  (1) For every call whose cache entry for the key
is not fresh at the first check (`now >= ExpiresAt - 5 min`), whose clock does
not run backwards between the two checks, and whose entry has a `RefreshTime`
`r` with `now - r < 30 s` at the throttle test: the call returns the error
"token refresh throttled, please wait a moment" with an empty token, calls the
token client zero times, performs no HTTP effect and leaves the cache
unchanged.  (2) After a call at time `r` that refreshed successfully with token
`t`, every second call for the same cache key at a time `now` with
`now - r < 30 s` finds the stored entry fresh: it returns `t` with no error,
calls the token client zero times, performs no HTTP effect and leaves the
service unchanged. -/
theorem throttle_only_when_stale :
    (∀ (env : Env) (clock : Clock) (s : OAuth2Service) (p c cs r : GoString) (acct : Nat)
        (k : GoString) (e : TokenCacheEntry),
        getCacheKey p c r = some k → s.tokenCache.get k = some e →
        e.ExpiresAt - 5 * minute ≤ clock.check → clock.check ≤ clock.recheck →
        clock.throttle - e.RefreshTime < 30 * second →
        (RefreshAccessTokenWithCache env clock s p c cs r acct).outcome =
            Outcome.returned [] (some (lit "token refresh throttled, please wait a moment")) ∧
          (RefreshAccessTokenWithCache env clock s p c cs r acct).refreshCalls = [] ∧
          (RefreshAccessTokenWithCache env clock s p c cs r acct).effects = [] ∧
          (RefreshAccessTokenWithCache env clock s p c cs r acct).service.tokenCache =
            s.tokenCache) ∧
    (∀ (env env2 : Env) (clock2 : Clock) (s : OAuth2Service) (p c cs cs2 r r2 : GoString)
        (acct acct2 : Nat) (at1 : Int) (k : GoString) (t : GoString),
        getCacheKey p c r = some k → getCacheKey p c r2 = some k →
        (RefreshAccessTokenWithCache env (Clock.frozen at1) s p c cs r acct).outcome =
          Outcome.returned t none →
        (RefreshAccessTokenWithCache env (Clock.frozen at1) s p c cs r acct).refreshCalls ≠
          [] →
        clock2.check - at1 < 30 * second →
        RefreshAccessTokenWithCache env2 clock2
            (RefreshAccessTokenWithCache env (Clock.frozen at1) s p c cs r acct).service
            p c cs2 r2 acct2 =
          { outcome := Outcome.returned t none,
            service := (RefreshAccessTokenWithCache env (Clock.frozen at1) s p c cs r
              acct).service,
            refreshCalls := [], effects := [] }) := by
  constructor
  · intro env clock s p c cs r acct k e hk he hx hm hr
    have h1 : cachedToken s.tokenCache k clock.check = none :=
      cachedToken_stale _ _ _ e he hx
    have h2 : cachedToken s.tokenCache k clock.recheck = none :=
      cachedToken_stale _ _ _ e he (by omega)
    have h3 : throttled s.tokenCache k clock.throttle = true := by
      simp only [throttled, he, hr, decide_True]
    rw [call_of_throttled env clock s p c cs r acct k hk h1 h2 h3]
    exact ⟨rfl, rfl, rfl, getAccountLock_tokenCache _ _⟩
  · intro env env2 clock2 s p c cs cs2 r r2 acct acct2 at1 k t hk hk2 hout hcalls hnow
    have hstored := stored_of_refreshed env (Clock.frozen at1) s p c cs r acct k t hk hout hcalls
    refine call_of_fresh env2 clock2 _ p c cs2 r2 acct2 k _ hk2 hstored ?_
    simp only [Clock.frozen, minute, second] at *
    omega

/-- C3 amended, at concrete inputs: (1) an entry that expires in 4 minutes and
was refreshed 10 s ago is throttled; (2) ten seconds after a successful refresh
the same key is served from the cache. -/
theorem throttle_only_when_stale_witness :
    (RefreshAccessTokenWithCache offline (Clock.frozen 0)
          { tokenCache :=
              [(lit "gmail_cid_0123456789",
                { AccessToken := lit "old", ExpiresAt := 4 * minute,
                  RefreshTime := -10 * second })],
            accountLocks := [] }
          (lit "gmail") (lit "cid") (lit "secret") (lit "0123456789abc") 7).outcome =
        Outcome.returned [] (some (lit "token refresh throttled, please wait a moment")) ∧
      RefreshAccessTokenWithCache offline (Clock.frozen (10 * second))
          (RefreshAccessTokenWithCache (answering [(lit "access_token", JVal.str (lit "tok"))])
            (Clock.frozen 0) NewOAuth2Service
            (lit "gmail") (lit "cid") (lit "secret") (lit "0123456789abc") 7).service
          (lit "gmail") (lit "cid") (lit "secret") (lit "0123456789abc") 7 =
        { outcome := Outcome.returned (lit "tok") none,
          service :=
            (RefreshAccessTokenWithCache (answering [(lit "access_token", JVal.str (lit "tok"))])
              (Clock.frozen 0) NewOAuth2Service
              (lit "gmail") (lit "cid") (lit "secret") (lit "0123456789abc") 7).service,
          refreshCalls := [], effects := [] } :=
  ⟨(throttle_only_when_stale.1 offline (Clock.frozen 0) _ (lit "gmail") (lit "cid")
      (lit "secret") (lit "0123456789abc") 7 (lit "gmail_cid_0123456789")
      { AccessToken := lit "old", ExpiresAt := 4 * minute, RefreshTime := -10 * second }
      (by decide) (by decide) (by decide) (by decide) (by decide)).1,
   throttle_only_when_stale.2 (answering [(lit "access_token", JVal.str (lit "tok"))]) offline
      (Clock.frozen (10 * second)) NewOAuth2Service (lit "gmail") (lit "cid") (lit "secret")
      (lit "secret") (lit "0123456789abc") (lit "0123456789abc") 7 7 0
      (lit "gmail_cid_0123456789") (lit "tok")
      (by decide) (by decide) (by decide) (by decide) (by decide)⟩

/-- C4 (Atomicity on failure).  For every call that returns an error (the
throttle error, the unsupported-provider error or any failure of the token
client), whatever the clock readings, the token cache after the call equals the
token cache before the call; in particular every entry present before is still
present with the same `AccessToken`, `ExpiresAt` and `RefreshTime`. -/
theorem failure_leaves_cache (env : Env) (clock : Clock) (s : OAuth2Service)
    (p c cs r : GoString) (acct : Nat) (tok err : GoString)
    (hout : (RefreshAccessTokenWithCache env clock s p c cs r acct).outcome =
      Outcome.returned tok (some err)) :
    (RefreshAccessTokenWithCache env clock s p c cs r acct).service.tokenCache =
        s.tokenCache ∧
      ∀ k e, s.tokenCache.get k = some e →
        (RefreshAccessTokenWithCache env clock s p c cs r acct).service.tokenCache.get k =
          some e := by
  have h := cache_of_failure env clock s p c cs r acct tok err hout
  refine ⟨h, ?_⟩
  intro k e he
  rw [h]
  exact he

/-- C4, at a concrete input: the entry is stale, the refresh fails on the
network, and the stale entry is kept as it was. -/
theorem failure_leaves_cache_witness :
    (RefreshAccessTokenWithCache offline (Clock.frozen (51 * minute))
          { tokenCache :=
              [(lit "gmail_cid_0123456789",
                { AccessToken := lit "old", ExpiresAt := 55 * minute, RefreshTime := 0 })],
            accountLocks := [] }
          (lit "gmail") (lit "cid") (lit "secret") (lit "0123456789abc") 7).outcome =
        Outcome.returned [] (some (lit "failed to refresh token: dial tcp: i/o timeout")) ∧
      (RefreshAccessTokenWithCache offline (Clock.frozen (51 * minute))
          { tokenCache :=
              [(lit "gmail_cid_0123456789",
                { AccessToken := lit "old", ExpiresAt := 55 * minute, RefreshTime := 0 })],
            accountLocks := [] }
          (lit "gmail") (lit "cid") (lit "secret") (lit "0123456789abc") 7).service.tokenCache =
        [(lit "gmail_cid_0123456789",
          { AccessToken := lit "old", ExpiresAt := 55 * minute, RefreshTime := 0 })] :=
  ⟨by decide,
   (failure_leaves_cache offline (Clock.frozen (51 * minute))
      { tokenCache :=
          [(lit "gmail_cid_0123456789",
            { AccessToken := lit "old", ExpiresAt := 55 * minute, RefreshTime := 0 })],
        accountLocks := [] }
      (lit "gmail") (lit "cid") (lit "secret") (lit "0123456789abc") 7 []
      (lit "failed to refresh token: dial tcp: i/o timeout") (by decide)).1⟩

/-- C9 (Cache-key dependence on the first ten bytes).  (1) For two refresh
tokens of at least ten bytes with the same first ten bytes, and the same
provider type and client id, the cache keys are equal.  (2) Consequently, after
a call for token `a` that returned the access token `t` without error, a call
with such a token `b`, made while the entry of the key is fresh, returns `t`
with no error, calls the token client zero times, performs no HTTP effect and
leaves the service unchanged. -/
theorem cacheKey_shared_by_tokens :
    (∀ (p c a b : GoString), 10 ≤ a.length → 10 ≤ b.length → a.take 10 = b.take 10 →
        getCacheKey p c a = getCacheKey p c b) ∧
    (∀ (env env2 : Env) (clock clock2 : Clock) (s : OAuth2Service)
        (p c cs cs2 a b : GoString) (acct acct2 : Nat) (k t : GoString),
        10 ≤ a.length → 10 ≤ b.length → a.take 10 = b.take 10 →
        getCacheKey p c a = some k →
        (RefreshAccessTokenWithCache env clock s p c cs a acct).outcome =
          Outcome.returned t none →
        (∀ e, (RefreshAccessTokenWithCache env clock s p c cs a acct).service.tokenCache.get k =
            some e → clock2.check < e.ExpiresAt - 5 * minute) →
        RefreshAccessTokenWithCache env2 clock2
            (RefreshAccessTokenWithCache env clock s p c cs a acct).service p c cs2 b acct2 =
          { outcome := Outcome.returned t none,
            service := (RefreshAccessTokenWithCache env clock s p c cs a acct).service,
            refreshCalls := [], effects := [] }) := by
  have hkey : ∀ (p c a b : GoString), 10 ≤ a.length → 10 ≤ b.length →
      a.take 10 = b.take 10 → getCacheKey p c a = getCacheKey p c b := by
    intro p c a b ha hb hab
    simp only [getCacheKey, ha, hb, if_true, hab]
  refine ⟨hkey, ?_⟩
  intro env env2 clock clock2 s p c cs cs2 a b acct acct2 k t ha hb hab hk hout hfresh
  obtain ⟨e, he, het⟩ := entry_of_success env clock s p c cs a acct k t hk hout
  have hkb : getCacheKey p c b = some k := by rw [← hkey p c a b ha hb hab]; exact hk
  rw [call_of_fresh env2 clock2 _ p c cs2 b acct2 k e hkb he (hfresh e he), het]

/-- C9, at a concrete input: two different refresh tokens with the same first
ten bytes; the second is served the access token obtained for the first. -/
theorem cacheKey_shared_by_tokens_witness :
    lit "0123456789-alice" ≠ lit "0123456789-bob" ∧
      getCacheKey (lit "gmail") (lit "cid") (lit "0123456789-alice") =
        getCacheKey (lit "gmail") (lit "cid") (lit "0123456789-bob") ∧
      (RefreshAccessTokenWithCache offline (Clock.frozen (10 * minute))
          (RefreshAccessTokenWithCache
            (answering [(lit "access_token", JVal.str (lit "token-of-alice"))])
            (Clock.frozen 0) NewOAuth2Service
            (lit "gmail") (lit "cid") (lit "secret") (lit "0123456789-alice") 1).service
          (lit "gmail") (lit "cid") (lit "secret") (lit "0123456789-bob") 2).outcome =
        Outcome.returned (lit "token-of-alice") none :=
  ⟨by decide,
   cacheKey_shared_by_tokens.1 (lit "gmail") (lit "cid") (lit "0123456789-alice")
     (lit "0123456789-bob") (by decide) (by decide) (by decide),
   by
    rw [cacheKey_shared_by_tokens.2
      (answering [(lit "access_token", JVal.str (lit "token-of-alice"))]) offline
      (Clock.frozen 0) (Clock.frozen (10 * minute)) NewOAuth2Service
      (lit "gmail") (lit "cid") (lit "secret") (lit "secret")
      (lit "0123456789-alice") (lit "0123456789-bob") 1 2
      (lit "gmail_cid_0123456789") (lit "token-of-alice")
      (by decide) (by decide) (by decide) (by decide) (by decide) (by decide)]⟩

/-- C10 (Totality of key derivation).  `getCacheKey` is defined exactly when
the refresh token has at least ten bytes, and then it is the provider type,
`_`, the client id, `_` and the first ten bytes of the refresh token; for every
refresh token shorter than ten bytes (the empty string included) the call of
`RefreshAccessTokenWithCache` panics: it returns neither a token nor an error,
the service is untouched, the token client is not called and no HTTP effect is
performed. -/
theorem getCacheKey_total_iff :
    (∀ (p c r : GoString), (getCacheKey p c r).isSome = true ↔ 10 ≤ r.length) ∧
    (∀ (p c r : GoString), 10 ≤ r.length →
        getCacheKey p c r = some (p ++ lit "_" ++ c ++ lit "_" ++ r.take 10)) ∧
    (∀ (env : Env) (clock : Clock) (s : OAuth2Service) (p c cs r : GoString) (acct : Nat),
        r.length < 10 →
        RefreshAccessTokenWithCache env clock s p c cs r acct =
          { outcome := Outcome.panicked, service := s, refreshCalls := [], effects := [] }) := by
  refine ⟨?_, ?_, ?_⟩
  · intro p c r
    unfold getCacheKey
    split <;> simp [*]
  · intro p c r h
    simp only [getCacheKey, h, if_true]
  · intro env clock s p c cs r acct h
    have hk : getCacheKey p c r = none := by
      have : ¬ 10 ≤ r.length := by omega
      simp only [getCacheKey, this, if_false]
    simp only [RefreshAccessTokenWithCache, hk]

/-- C10, at concrete inputs: a ten-byte token gives the key
`gmail_cid_0123456789`; with the empty refresh token the call panics. -/
theorem getCacheKey_total_iff_witness :
    getCacheKey (lit "gmail") (lit "cid") (lit "0123456789") =
        some (lit "gmail_cid_0123456789") ∧
      RefreshAccessTokenWithCache offline (Clock.frozen 0) NewOAuth2Service
          (lit "gmail") (lit "cid") (lit "secret") [] 7 =
        { outcome := Outcome.panicked, service := NewOAuth2Service, refreshCalls := [],
          effects := [] } :=
  ⟨getCacheKey_total_iff.2.1 (lit "gmail") (lit "cid") (lit "0123456789") (by decide),
   getCacheKey_total_iff.2.2 offline (Clock.frozen 0) NewOAuth2Service
     (lit "gmail") (lit "cid") (lit "secret") [] 7 (by decide)⟩

/-! ## The XOAUTH2 encoder -/

theorem decSym_encSym_lt : ∀ n, n < 64 → decSym (encSym n) = some n := by decide

theorem encSym_ne_pad_lt : ∀ n, n < 64 → encSym n ≠ padChar := by decide

theorem encSym_mod (v : Nat) : encSym (v % 64) = encSym v := by
  simp [encSym]

theorem decSym_encSym (v : Nat) : decSym (encSym v) = some (v % 64) := by
  rw [← encSym_mod]
  exact decSym_encSym_lt _ (Nat.mod_lt _ (by decide))

theorem encSym_ne_pad (v : Nat) : encSym v ≠ padChar := by
  rw [← encSym_mod]
  exact encSym_ne_pad_lt _ (Nat.mod_lt _ (by decide))

theorem ofNat_byte (b : Fin 256) (n : Nat) (h : n = b.val) : (Fin.ofNat n : Fin 256) = b := by
  subst h
  apply Fin.ext
  simp [Fin.ofNat]

/-- Decoding inverts `base64.StdEncoding.EncodeToString` on every byte sequence. -/
theorem base64Decode_base64Encode (x : GoString) : base64Decode (base64Encode x) = some x := by
  induction x using base64Encode.induct with
  | case1 => rfl
  | case2 b0 =>
    have h0 := b0.isLt
    simp only [base64Encode, base64Decode, and_self, if_true, decSym_encSym]
    simp only [Option.some.injEq, List.cons.injEq, and_true]
    apply ofNat_byte
    omega
  | case3 b0 b1 =>
    have h0 := b0.isLt
    have h1 := b1.isLt
    simp only [base64Encode, base64Decode, encSym_ne_pad, false_and, if_false, if_true,
      decSym_encSym]
    simp only [Option.some.injEq, List.cons.injEq, and_true]
    constructor <;> apply ofNat_byte <;> omega
  | case4 b0 b1 b2 rest ih =>
    have h0 := b0.isLt
    have h1 := b1.isLt
    have h2 := b2.isLt
    simp only [base64Encode, base64Decode, encSym_ne_pad, false_and, if_false,
      decSym_encSym, ih]
    simp only [Option.some.injEq, List.cons.injEq, and_true]
    refine ⟨?_, ?_, ?_⟩ <;> apply ofNat_byte <;> omega

/-- The text formatted by `GenerateOAuth2AuthString` and `Start`, byte by byte. -/
theorem xoauth2_bytes (email accessToken : GoString) :
    lit "user=" ++ email ++ lit "\x01auth=Bearer " ++ accessToken ++ lit "\x01\x01" =
      [117, 115, 101, 114, 61] ++ email ++ [1] ++
        [97, 117, 116, 104, 61, 66, 101, 97, 114, 101, 114, 32] ++ accessToken ++ [1] ++ [1] := by
  have h1 : lit "user=" = [117, 115, 101, 114, 61] := by decide
  have h2 : lit "\x01auth=Bearer " =
      [1] ++ [97, 117, 116, 104, 61, 66, 101, 97, 114, 101, 114, 32] := by decide
  have h3 : lit "\x01\x01" = [1] ++ [1] := by decide
  rw [h1, h2, h3]
  simp only [List.append_assoc]

/-- C6 (XOAUTH2 encoding).  For every email and access token,
`GenerateOAuth2AuthString` is the standard padded base64 encoding of the bytes
`user=` email 0x01 `auth=Bearer ` token 0x01 0x01, so decoding the result gives
back exactly those bytes; `Start` offers the same bytes, not encoded, under the
mechanism name XOAUTH2; and for `a@b.com` and `tok` the encoded string is
`dXNlcj1hQGIuY29tAWF1dGg9QmVhcmVyIHRvawEB`, the base64 of `user=a@b.com` 0x01
`auth=Bearer tok` 0x01 0x01. -/
theorem xoauth2_encoding :
    (∀ email accessToken : GoString,
        GenerateOAuth2AuthString email accessToken =
          base64Encode ([117, 115, 101, 114, 61] ++ email ++ [1] ++
            [97, 117, 116, 104, 61, 66, 101, 97, 114, 101, 114, 32] ++ accessToken ++
            [1] ++ [1])) ∧
    (∀ email accessToken : GoString,
        base64Decode (GenerateOAuth2AuthString email accessToken) =
          some ([117, 115, 101, 114, 61] ++ email ++ [1] ++
            [97, 117, 116, 104, 61, 66, 101, 97, 114, 101, 114, 32] ++ accessToken ++
            [1] ++ [1])) ∧
    (∀ email accessToken : GoString,
        (NewOAuth2SASLClient email accessToken).Start =
          (lit "XOAUTH2",
            [117, 115, 101, 114, 61] ++ email ++ [1] ++
              [97, 117, 116, 104, 61, 66, 101, 97, 114, 101, 114, 32] ++ accessToken ++
              [1] ++ [1],
            none)) ∧
    GenerateOAuth2AuthString (lit "a@b.com") (lit "tok") =
        lit "dXNlcj1hQGIuY29tAWF1dGg9QmVhcmVyIHRvawEB" ∧
    base64Decode (lit "dXNlcj1hQGIuY29tAWF1dGg9QmVhcmVyIHRvawEB") =
        some (lit "user=a@b.com\x01auth=Bearer tok\x01\x01") := by
  refine ⟨?_, ?_, ?_, ?_, ?_⟩
  · intro email accessToken
    simp only [GenerateOAuth2AuthString, xoauth2_bytes]
  · intro email accessToken
    simp only [GenerateOAuth2AuthString, xoauth2_bytes, base64Decode_base64Encode]
  · intro email accessToken
    simp only [OAuth2SASLClient.Start, NewOAuth2SASLClient, xoauth2_bytes]
  · decide
  · decide

/-! ## The token client -/

theorem errorfNoArgs_of_no_percent (env : Env) (format : GoString) (h : percent ∉ format) :
    errorfNoArgs env format = format := by
  have hd : format.dropWhile (fun b => b != percent) = [] := by
    rw [List.dropWhile_eq_nil_iff]
    intro x hx
    have : x ≠ percent := fun hxp => h (hxp ▸ hx)
    simpa using this
  simp only [errorfNoArgs, hd]

theorem errorfNoArgs_head (env : Env) (b : Fin 256) (rest : GoString) (hb : b ≠ percent) :
    (errorfNoArgs env (b :: rest)).head? = some b := by
  have hb1 : (b != percent) = true := by simpa using hb
  unfold errorfNoArgs
  split
  · rfl
  · simp [List.takeWhile_cons, hb1]

/-- The literal `OAuth2 error: ` starts with the byte `O`. -/
theorem oauth2_error_cons : lit "OAuth2 error: " = 79 :: lit "Auth2 error: " := by decide

/-- An error of the decoded refresh response starts with `O` or with `a`. -/
theorem refreshDecoded_err_head (env : Env) (result : JObject) (m : GoString)
    (h : (refreshDecoded env result).2 = some m) :
    m.head? = some 79 ∨ m.head? = some 97 := by
  unfold refreshDecoded at h
  split at h
  · left
    simp only [Option.some.injEq] at h
    rw [← h, oauth2_error_cons]
    split <;> split <;> split <;> (try split) <;>
      simp only [List.cons_append] <;> exact errorfNoArgs_head _ _ _ (by decide)
  · right
    split at h
    · simp only [Option.some.injEq] at h
      rw [← h]
      decide
    · simp at h

/-- An error of the decoded exchange response starts with `O`, `a` or `r`. -/
theorem exchangeDecoded_err_head (env : Env) (result : JObject) (m : GoString)
    (h : (exchangeDecoded env result).2.2 = some m) :
    m.head? = some 79 ∨ m.head? = some 97 ∨ m.head? = some 114 := by
  unfold exchangeDecoded at h
  split at h
  · left
    simp only [Option.some.injEq] at h
    rw [← h, oauth2_error_cons]
    rfl
  · right
    split at h
    · left
      simp only [Option.some.injEq] at h
      rw [← h]
      decide
    · right
      split at h
      · simp only [Option.some.injEq] at h
        rw [← h]
        decide
      · simp at h

theorem failed_cons (s : String) (e : GoString) (h : (lit s).head? = some 102) :
    (lit s ++ e).head? = some 102 := by
  cases hs : lit s with
  | nil => simp [hs] at h
  | cons a t =>
    rw [hs] at h
    simpa using h

/-- An error of the refresh operation, for a supported provider, starts with
`f`, `O` or `a`. -/
theorem refreshAt_err_head (env : Env) (url scope c cs r m : GoString)
    (h : (refreshAt env url scope c cs r).err = some m) :
    m.head? = some 102 ∨ m.head? = some 79 ∨ m.head? = some 97 := by
  unfold refreshAt at h
  simp only at h
  split at h
  · left
    simp only [Option.some.injEq] at h
    rw [← h]
    exact failed_cons _ _ (by decide)
  · split at h
    · left
      simp only [Option.some.injEq] at h
      rw [← h]
      exact failed_cons _ _ (by decide)
    · split at h
      · left
        simp only [Option.some.injEq] at h
        rw [← h]
        exact failed_cons _ _ (by decide)
      · split at h
        · left
          simp only [Option.some.injEq] at h
          rw [← h]
          exact failed_cons _ _ (by decide)
        · right
          exact refreshDecoded_err_head env _ m h

/-- An error of the code exchange, for a supported provider, starts with `f`,
`O`, `a` or `r`. -/
theorem exchangeAt_err_head (env : Env) (url c cs code uri m : GoString)
    (h : (exchangeAt env url c cs code uri).err = some m) :
    m.head? = some 102 ∨ m.head? = some 79 ∨ m.head? = some 97 ∨ m.head? = some 114 := by
  unfold exchangeAt at h
  simp only at h
  split at h
  · left
    simp only [Option.some.injEq] at h
    rw [← h]
    exact failed_cons _ _ (by decide)
  · split at h
    · left
      simp only [Option.some.injEq] at h
      rw [← h]
      exact failed_cons _ _ (by decide)
    · split at h
      · left
        simp only [Option.some.injEq] at h
        rw [← h]
        exact failed_cons _ _ (by decide)
      · split at h
        · left
          simp only [Option.some.injEq] at h
          rw [← h]
          exact failed_cons _ _ (by decide)
        · right
          exact exchangeDecoded_err_head env _ m h

/-- The unsupported-provider message starts with `u`. -/
theorem unsupported_head (q : GoString) :
    (lit "unsupported provider type: " ++ q).head? = some 117 := by
  have : lit "unsupported provider type: " = 117 :: lit "nsupported provider type: " := by
    decide
  rw [this]
  rfl

/-- C5 (UnsupportedProvider).  (1) For every provider type other than `gmail`
and `outlook`, and all other arguments, `GenerateAuthURL`,
`RefreshAccessTokenForProvider` and `ExchangeCodeForTokens` each fail with the
message "unsupported provider type: " followed by the provider type, return
empty strings, and perform no HTTP effect (no request is built or sent).
(2) For `gmail` and `outlook`, none of the three returns an error of that form:
`GenerateAuthURL` returns no error at all, and the other two return no error
whose message is "unsupported provider type: " followed by anything. -/
theorem unsupported_provider :
    (∀ (env : Env) (p c cs x y : GoString), p ≠ lit "gmail" → p ≠ lit "outlook" →
        GenerateAuthURL env p c x y = ([], some (lit "unsupported provider type: " ++ p)) ∧
          RefreshAccessTokenForProvider env p c cs x =
            { token := [], err := some (lit "unsupported provider type: " ++ p),
              effects := [] } ∧
          ExchangeCodeForTokens env p c cs x y =
            { accessToken := [], refreshToken := [],
              err := some (lit "unsupported provider type: " ++ p), effects := [] }) ∧
    (∀ (env : Env) (p c cs x y q : GoString), p = lit "gmail" ∨ p = lit "outlook" →
        (GenerateAuthURL env p c x y).2 = none ∧
          (RefreshAccessTokenForProvider env p c cs x).err ≠
            some (lit "unsupported provider type: " ++ q) ∧
          (ExchangeCodeForTokens env p c cs x y).err ≠
            some (lit "unsupported provider type: " ++ q)) := by
  constructor
  · intro env p c cs x y hg ho
    refine ⟨?_, ?_, ?_⟩
    · simp only [GenerateAuthURL, hg, ho, if_false]
    · simp only [RefreshAccessTokenForProvider, hg, ho, if_false]
    · simp only [ExchangeCodeForTokens, hg, ho, if_false]
  · intro env p c cs x y q hp
    have hne : lit "outlook" ≠ lit "gmail" := by decide
    refine ⟨?_, ?_, ?_⟩
    · rcases hp with h | h <;> subst h <;> simp only [GenerateAuthURL, hne, if_true, if_false]
    · intro h
      have hu := unsupported_head q
      have hh : ∃ url scope, (refreshAt env url scope c cs x).err =
          some (lit "unsupported provider type: " ++ q) := by
        rcases hp with h1 | h1 <;> subst h1 <;>
          simp only [RefreshAccessTokenForProvider, hne, if_true, if_false] at h <;>
          exact ⟨_, _, h⟩
      obtain ⟨url, scope, hh⟩ := hh
      rcases refreshAt_err_head env url scope c cs x _ hh with h1 | h1 | h1 <;>
        rw [hu] at h1 <;> revert h1 <;> decide
    · intro h
      have hu := unsupported_head q
      have hh : ∃ url, (exchangeAt env url c cs x y).err =
          some (lit "unsupported provider type: " ++ q) := by
        rcases hp with h1 | h1 <;> subst h1 <;>
          simp only [ExchangeCodeForTokens, hne, if_true, if_false] at h <;>
          exact ⟨_, h⟩
      obtain ⟨url, hh⟩ := hh
      rcases exchangeAt_err_head env url c cs x y _ hh with h1 | h1 | h1 | h1 <;>
        rw [hu] at h1 <;> revert h1 <;> decide

/-- C5, at concrete inputs: `yahoo` is rejected by the three operations before
any request; `gmail` is not. -/
theorem unsupported_provider_witness :
    (GenerateAuthURL offline (lit "yahoo") (lit "cid") (lit "https://app/cb") (lit "st") =
          ([], some (lit "unsupported provider type: yahoo")) ∧
        RefreshAccessTokenForProvider offline (lit "yahoo") (lit "cid") (lit "secret")
            (lit "https://app/cb") =
          { token := [], err := some (lit "unsupported provider type: yahoo"), effects := [] } ∧
        ExchangeCodeForTokens offline (lit "yahoo") (lit "cid") (lit "secret")
            (lit "https://app/cb") (lit "st") =
          { accessToken := [], refreshToken := [],
            err := some (lit "unsupported provider type: yahoo"), effects := [] }) ∧
      (GenerateAuthURL offline (lit "gmail") (lit "cid") (lit "https://app/cb") (lit "st")).2 =
        none :=
  ⟨unsupported_provider.1 offline (lit "yahoo") (lit "cid") (lit "secret")
      (lit "https://app/cb") (lit "st") (by decide) (by decide),
   (unsupported_provider.2 offline (lit "gmail") (lit "cid") (lit "secret")
      (lit "https://app/cb") (lit "st") [] (Or.inl rfl)).1⟩

/-- When the request is built and sent and the body decodes to `result`, the
refresh operation returns what the decoded response gives. -/
theorem refresh_of_answer (env : Env) (p c cs r : GoString) (status : Nat) (raw : GoString)
    (result : JObject) (hp : p = lit "gmail" ∨ p = lit "outlook")
    (hnew : ∀ url body, env.newRequest (lit "POST") url body = none)
    (hdo : ∀ req, env.httpDo req = Except.ok { statusCode := status, body := Except.ok raw })
    (hjson : env.jsonUnmarshal raw = Except.ok result) :
    (RefreshAccessTokenForProvider env p c cs r).token = (refreshDecoded env result).1 ∧
      (RefreshAccessTokenForProvider env p c cs r).err = (refreshDecoded env result).2 := by
  have hne : lit "outlook" ≠ lit "gmail" := by decide
  rcases hp with h | h <;> subst h <;>
    simp only [RefreshAccessTokenForProvider, hne, if_true, if_false, refreshAt, hnew, hdo,
      hjson, and_self]

/-- When the request is built and sent and the body decodes to `result`, the
code exchange returns what the decoded response gives. -/
theorem exchange_of_answer (env : Env) (p c cs code uri : GoString) (status : Nat)
    (raw : GoString) (result : JObject) (hp : p = lit "gmail" ∨ p = lit "outlook")
    (hnew : ∀ url body, env.newRequest (lit "POST") url body = none)
    (hdo : ∀ req, env.httpDo req = Except.ok { statusCode := status, body := Except.ok raw })
    (hjson : env.jsonUnmarshal raw = Except.ok result) :
    (ExchangeCodeForTokens env p c cs code uri).accessToken = (exchangeDecoded env result).1 ∧
      (ExchangeCodeForTokens env p c cs code uri).refreshToken =
        (exchangeDecoded env result).2.1 ∧
      (ExchangeCodeForTokens env p c cs code uri).err = (exchangeDecoded env result).2.2 := by
  have hne : lit "outlook" ≠ lit "gmail" := by decide
  rcases hp with h | h <;> subst h <;>
    simp only [ExchangeCodeForTokens, hne, if_true, if_false, exchangeAt, hnew, hdo,
      hjson, and_self]

theorem getString_eq_some (result : JObject) (key s : GoString) :
    result.getString key = some s ↔ result.get key = some (JVal.str s) := by
  unfold JObject.getString
  split
  · rename_i s1 h
    rw [h]
    simp
  · rename_i h
    constructor
    · intro h1
      simp at h1
    · intro h1
      exact absurd h1 (h s)

theorem getString_eq_none (result : JObject) (key : GoString) :
    result.getString key = none ↔ ∀ s, result.get key ≠ some (JVal.str s) := by
  constructor
  · intro h s hs
    rw [(getString_eq_some result key s).2 hs] at h
    simp at h
  · intro h
    cases hg : result.getString key with
    | none => rfl
    | some s => exact absurd ((getString_eq_some result key s).1 hg) (h s)

/-- C7 (exchangeCode strictness).  For a supported provider, when the request
is built and sent and the response body decodes to a JSON object `result` that
has no `error` field: `ExchangeCodeForTokens` returns no error if and only if
`access_token` and `refresh_token` are both present as strings, and then it
returns exactly those two values; if `access_token` is not present as a string
it fails with "access_token not found in response", and if `access_token` is but
`refresh_token` is not it fails with "refresh_token not found in response", both
tokens returned being empty in either case. -/
theorem exchange_needs_both_tokens (env : Env) (p c cs code uri : GoString) (status : Nat)
    (raw : GoString) (result : JObject) (hp : p = lit "gmail" ∨ p = lit "outlook")
    (hnew : ∀ url body, env.newRequest (lit "POST") url body = none)
    (hdo : ∀ req, env.httpDo req = Except.ok { statusCode := status, body := Except.ok raw })
    (hjson : env.jsonUnmarshal raw = Except.ok result)
    (herr : result.get (lit "error") = none) :
    ((ExchangeCodeForTokens env p c cs code uri).err = none ↔
        ∃ a r, result.get (lit "access_token") = some (JVal.str a) ∧
          result.get (lit "refresh_token") = some (JVal.str r)) ∧
      (∀ a r, result.get (lit "access_token") = some (JVal.str a) →
        result.get (lit "refresh_token") = some (JVal.str r) →
        (ExchangeCodeForTokens env p c cs code uri).accessToken = a ∧
          (ExchangeCodeForTokens env p c cs code uri).refreshToken = r ∧
          (ExchangeCodeForTokens env p c cs code uri).err = none) ∧
      ((∀ a, result.get (lit "access_token") ≠ some (JVal.str a)) →
        (ExchangeCodeForTokens env p c cs code uri).accessToken = [] ∧
          (ExchangeCodeForTokens env p c cs code uri).refreshToken = [] ∧
          (ExchangeCodeForTokens env p c cs code uri).err =
            some (lit "access_token not found in response")) ∧
      (∀ a, result.get (lit "access_token") = some (JVal.str a) →
        (∀ r, result.get (lit "refresh_token") ≠ some (JVal.str r)) →
        (ExchangeCodeForTokens env p c cs code uri).accessToken = [] ∧
          (ExchangeCodeForTokens env p c cs code uri).refreshToken = [] ∧
          (ExchangeCodeForTokens env p c cs code uri).err =
            some (lit "refresh_token not found in response")) := by
  obtain ⟨h1, h2, h3⟩ :=
    exchange_of_answer env p c cs code uri status raw result hp hnew hdo hjson
  rw [h1, h2, h3]
  have both : ∀ a r, result.get (lit "access_token") = some (JVal.str a) →
      result.get (lit "refresh_token") = some (JVal.str r) →
      exchangeDecoded env result = (a, r, none) := by
    intro a r ha hr
    simp only [exchangeDecoded, herr, (getString_eq_some _ _ _).2 ha,
      (getString_eq_some _ _ _).2 hr]
  have noAccess : (∀ a, result.get (lit "access_token") ≠ some (JVal.str a)) →
      exchangeDecoded env result =
        ([], [], some (lit "access_token not found in response")) := by
    intro ha
    simp only [exchangeDecoded, herr, (getString_eq_none _ _).2 ha]
  have noRefresh : ∀ a, result.get (lit "access_token") = some (JVal.str a) →
      (∀ r, result.get (lit "refresh_token") ≠ some (JVal.str r)) →
      exchangeDecoded env result =
        ([], [], some (lit "refresh_token not found in response")) := by
    intro a ha hr
    simp only [exchangeDecoded, herr, (getString_eq_some _ _ _).2 ha,
      (getString_eq_none _ _).2 hr]
  refine ⟨?_, ?_, ?_, ?_⟩
  · constructor
    · intro hnone
      by_cases ha : ∃ a, result.get (lit "access_token") = some (JVal.str a)
      · obtain ⟨a, ha⟩ := ha
        by_cases hr : ∃ r, result.get (lit "refresh_token") = some (JVal.str r)
        · obtain ⟨r, hr⟩ := hr
          exact ⟨a, r, ha, hr⟩
        · rw [noRefresh a ha (fun r h => hr ⟨r, h⟩)] at hnone
          simp at hnone
      · rw [noAccess (fun a h => ha ⟨a, h⟩)] at hnone
        simp at hnone
    · rintro ⟨a, r, ha, hr⟩
      rw [both a r ha hr]
  · intro a r ha hr
    rw [both a r ha hr]
    exact ⟨rfl, rfl, rfl⟩
  · intro ha
    rw [noAccess ha]
    exact ⟨rfl, rfl, rfl⟩
  · intro a ha hr
    rw [noRefresh a ha hr]
    exact ⟨rfl, rfl, rfl⟩

/-- C7, at a concrete input: a response with an `access_token` and no
`refresh_token` fails with "refresh_token not found in response". -/
theorem exchange_needs_both_tokens_witness :
    (ExchangeCodeForTokens (answering [(lit "access_token", JVal.str (lit "ya29.a0"))])
        (lit "gmail") (lit "cid") (lit "secret") (lit "4/0Ab") (lit "https://app/cb")).accessToken =
        [] ∧
      (ExchangeCodeForTokens (answering [(lit "access_token", JVal.str (lit "ya29.a0"))])
        (lit "gmail") (lit "cid") (lit "secret") (lit "4/0Ab")
        (lit "https://app/cb")).refreshToken = [] ∧
      (ExchangeCodeForTokens (answering [(lit "access_token", JVal.str (lit "ya29.a0"))])
        (lit "gmail") (lit "cid") (lit "secret") (lit "4/0Ab") (lit "https://app/cb")).err =
        some (lit "refresh_token not found in response") :=
  (exchange_needs_both_tokens (answering [(lit "access_token", JVal.str (lit "ya29.a0"))])
    (lit "gmail") (lit "cid") (lit "secret") (lit "4/0Ab") (lit "https://app/cb") 200 []
    [(lit "access_token", JVal.str (lit "ya29.a0"))] (Or.inl rfl)
    (fun _ _ => rfl) (fun _ => rfl) rfl rfl).2.2.2 (lit "ya29.a0") rfl
    (fun r h => by
      have h0 : JObject.get [(lit "access_token", JVal.str (lit "ya29.a0"))]
          (lit "refresh_token") = none := rfl
      rw [h0] at h
      exact Option.noConfusion h)

/-- The decoded refresh response for an `invalid_grant` error whose text has no
`%`: the message is the composed text, ending with the explanation. -/
theorem refreshDecoded_invalid_grant (env : Env) (result : JObject)
    (herr : result.get (lit "error") = some (JVal.str (lit "invalid_grant")))
    (hdesc : percent ∉ (result.getString (lit "error_description")).getD [])
    (hcodes : percent ∉ env.fmtValue (JVal.arr (result.getArray (lit "error_codes"))))
    (hcorr : percent ∉ (result.getString (lit "correlation_id")).getD []) :
    refreshDecoded env result =
      ([], some (lit "OAuth2 error: invalid_grant - " ++
        (result.getString (lit "error_description")).getD [] ++
        (if (result.getArray (lit "error_codes")).length > 0 then
          lit " (Error codes: " ++
            env.fmtValue (JVal.arr (result.getArray (lit "error_codes"))) ++ lit ")"
         else []) ++
        (if (result.getString (lit "correlation_id")).getD [] ≠ [] then
          lit " (Correlation ID: " ++ (result.getString (lit "correlation_id")).getD [] ++
            lit ")"
         else []) ++
        invalidGrantCauses)) := by
  have e1 : lit "OAuth2 error: " ++ lit "invalid_grant" ++ lit " - " =
      lit "OAuth2 error: invalid_grant - " := by decide
  have p1 : percent ∉ lit "OAuth2 error: invalid_grant - " := by decide
  have p2 : percent ∉ lit " (Error codes: " := by decide
  have p3 : percent ∉ lit ")" := by decide
  have p4 : percent ∉ lit " (Correlation ID: " := by decide
  have p5 : percent ∉ invalidGrantCauses := by decide
  simp only [refreshDecoded, herr, sprintV, if_true, e1]
  congr 2
  by_cases hc : (result.getArray (lit "error_codes")).length > 0 <;>
    by_cases hk : (result.getString (lit "correlation_id")).getD [] = [] <;>
    simp only [hc, hk, ne_eq, not_true_eq_false, not_false_eq_true, if_true, if_false,
      List.append_nil, List.append_assoc] <;>
    rw [errorfNoArgs_of_no_percent] <;>
    simp only [List.mem_append, not_or] <;>
    simp only [p1, p2, p3, p4, p5, hdesc, hcodes, hcorr, not_false_eq_true, and_self]

/-- C8 fails as stated.  The token endpoint answers
`{"error": "invalid_grant", "error_description": "Bad Request"}`: the code
exchange fails with the message "OAuth2 error: invalid_grant - Bad Request",
which does not contain the explanation text. -/
theorem invalid_grant_exchange_counterexample :
    (ExchangeCodeForTokens
        (answering [(lit "error", JVal.str (lit "invalid_grant")),
          (lit "error_description", JVal.str (lit "Bad Request"))])
        (lit "gmail") (lit "cid") (lit "secret") (lit "4/0Ab") (lit "https://app/cb")).err =
        some (lit "OAuth2 error: invalid_grant - Bad Request") ∧
      ¬ ∃ pre post : GoString,
        lit "OAuth2 error: invalid_grant - Bad Request" = pre ++ invalidGrantCauses ++ post := by
  refine ⟨by decide, ?_⟩
  rintro ⟨pre, post, h⟩
  have hl := congrArg List.length h
  have h1 : (lit "OAuth2 error: invalid_grant - Bad Request").length = 41 := by decide
  have h2 : invalidGrantCauses.length = 113 := by decide
  rw [List.length_append, List.length_append, h1, h2] at hl
  omega

/-- C8, amended (invalid_grant diagnostic).  For a supported provider, when the
request is built and sent and the response body decodes to a JSON object whose
`error` field is the string `invalid_grant`:
(1) `RefreshAccessTokenForProvider` returns an empty token and an error whose
message is "OAuth2 error: invalid_grant - " followed by the error description,
the error codes and the correlation id when present, and ends with the
explanation text ("Possible causes: 1) Refresh token expired 2) Token already
used 3) Invalid client_id 4) User revoked permissions"), provided the
description, the rendered error codes and the correlation id contain no `%`;
(2) `ExchangeCodeForTokens` returns empty tokens and the message
"OAuth2 error: invalid_grant - " followed by the error description, without the
explanation text. -/
theorem invalid_grant_diagnostic (env : Env) (p c cs x y : GoString) (status : Nat)
    (raw : GoString) (result : JObject) (hp : p = lit "gmail" ∨ p = lit "outlook")
    (hnew : ∀ url body, env.newRequest (lit "POST") url body = none)
    (hdo : ∀ req, env.httpDo req = Except.ok { statusCode := status, body := Except.ok raw })
    (hjson : env.jsonUnmarshal raw = Except.ok result)
    (herr : result.get (lit "error") = some (JVal.str (lit "invalid_grant"))) :
    (percent ∉ (result.getString (lit "error_description")).getD [] →
      percent ∉ env.fmtValue (JVal.arr (result.getArray (lit "error_codes"))) →
      percent ∉ (result.getString (lit "correlation_id")).getD [] →
      (RefreshAccessTokenForProvider env p c cs x).token = [] ∧
        (RefreshAccessTokenForProvider env p c cs x).err =
          some (lit "OAuth2 error: invalid_grant - " ++
            (result.getString (lit "error_description")).getD [] ++
            (if (result.getArray (lit "error_codes")).length > 0 then
              lit " (Error codes: " ++
                env.fmtValue (JVal.arr (result.getArray (lit "error_codes"))) ++ lit ")"
             else []) ++
            (if (result.getString (lit "correlation_id")).getD [] ≠ [] then
              lit " (Correlation ID: " ++ (result.getString (lit "correlation_id")).getD [] ++
                lit ")"
             else []) ++
            invalidGrantCauses)) ∧
      (ExchangeCodeForTokens env p c cs x y).accessToken = [] ∧
      (ExchangeCodeForTokens env p c cs x y).refreshToken = [] ∧
      (ExchangeCodeForTokens env p c cs x y).err =
        some (lit "OAuth2 error: invalid_grant - " ++
          (result.getString (lit "error_description")).getD []) := by
  obtain ⟨r1, r2⟩ := refresh_of_answer env p c cs x status raw result hp hnew hdo hjson
  obtain ⟨e1, e2, e3⟩ := exchange_of_answer env p c cs x y status raw result hp hnew hdo hjson
  have hlit : lit "OAuth2 error: " ++ lit "invalid_grant" ++ lit " - " =
      lit "OAuth2 error: invalid_grant - " := by decide
  have hex : exchangeDecoded env result =
      ([], [], some (lit "OAuth2 error: invalid_grant - " ++
        (result.getString (lit "error_description")).getD [])) := by
    simp only [exchangeDecoded, herr, sprintV, hlit]
  refine ⟨?_, ?_, ?_, ?_⟩
  · intro hdesc hcodes hcorr
    rw [r1, r2, refreshDecoded_invalid_grant env result herr hdesc hcodes hcorr]
    exact ⟨rfl, rfl⟩
  · rw [e1, hex]
  · rw [e2, hex]
  · rw [e3, hex]

/-- C8 amended, at a concrete input: the answer
`{"error": "invalid_grant", "error_description": "Bad Request"}` to a refresh
gives a message that ends with the explanation text. -/
theorem invalid_grant_diagnostic_witness :
    (RefreshAccessTokenForProvider
        (answering [(lit "error", JVal.str (lit "invalid_grant")),
          (lit "error_description", JVal.str (lit "Bad Request"))])
        (lit "gmail") (lit "cid") (lit "secret") (lit "0123456789abc")).err =
      some (lit "OAuth2 error: invalid_grant - Bad Request\nPossible causes: 1) Refresh token expired 2) Token already used 3) Invalid client_id 4) User revoked permissions") := by
  have h := (invalid_grant_diagnostic
    (answering [(lit "error", JVal.str (lit "invalid_grant")),
      (lit "error_description", JVal.str (lit "Bad Request"))])
    (lit "gmail") (lit "cid") (lit "secret") (lit "0123456789abc") [] 200 []
    [(lit "error", JVal.str (lit "invalid_grant")),
      (lit "error_description", JVal.str (lit "Bad Request"))]
    (Or.inl rfl) (fun _ _ => rfl) (fun _ => rfl) rfl rfl).1 (by decide) (by decide) (by decide)
  rw [h.2]
  decide

end Mailman
